import Mathlib

/-!
# Verification of the scroll-triggered reveal-animation system

Shallow embedding of the reveal-animation hook and related handlers of
`src/App.tsx` and its duplicated variant `src/unnamed/part_000`
(a React Native landing page).  JavaScript numbers are modelled as exact
rationals (`ℚ`); the per-target React state (`isVisible`, `layoutY`) is
modelled as an explicit record threaded through event-step functions; the
`Animated.timing(...).start()` side effect is instrumented by a counter
`animStarts` that records how many times the entrance animation was
started, without changing control flow.
-/

/-- Per-target state of the `useScrollAnimation` hook:
`isVisible` mirrors the `useState(false)` flag, `layoutY` mirrors the
`useState<number | null>(null)` measured position, and `animStarts`
instruments how many times `Animated.timing(...).start()` ran. -/
structure TargetState where
  isVisible : Bool
  layoutY : Option ℚ
  animStarts : ℕ
deriving DecidableEq

/-- Initial hook state: `useState(false)`, `useState(null)`, no animation
started yet. -/
def initTarget : TargetState := ⟨false, none, 0⟩

/-- Events a registered target can receive: a scroll-signal update with
the current offset, a layout measurement reporting the vertical position,
the 80 ms fallback timer firing, and an intersection-observer callback
reporting the element intersecting. -/
inductive RevealEvent where
  | scroll (v : ℚ)
  | layout (y : ℚ)
  | timerTick
  | observerHit
deriving DecidableEq

namespace AppTsx

/-- `animateIn` (src/App.tsx lines 239-249): if `isVisible` is already
set, return unchanged; otherwise latch `isVisible := true` and start the
timed entrance animation (recorded by bumping `animStarts`). -/
def animateIn (st : TargetState) : TargetState :=
  if st.isVisible then st
  else { st with isVisible := true, animStarts := st.animStarts + 1 }

/-- `buffer = screenHeight * 0.1` (src/App.tsx line 291). -/
def buffer (screenHeight : ℚ) : ℚ := screenHeight * 0.1

/-- `checkAndAnimate` (src/App.tsx lines 293-299): the source guard
`if (isVisible || layoutY == null) return` is rendered as a match on
`layoutY` followed by the `isVisible` test; then
`visibleBottom = scrollValue + screenHeight` is compared against
`layoutY + buffer`, and `animateIn` runs when it is at least as large. -/
def checkAndAnimate (screenHeight : ℚ) (st : TargetState) (scrollValue : ℚ) :
    TargetState :=
  match st.layoutY with
  | none => st
  | some layoutY =>
    if st.isVisible then st
    else
      let visibleBottom := scrollValue + screenHeight
      if visibleBottom ≥ layoutY + buffer screenHeight then animateIn st
      else st

/-- One event step of the scroll-offset strategy (src/App.tsx lines
288-307).  A scroll-signal update runs `checkAndAnimate` at the reported
offset; a layout report stores the measured position via `setLayoutY` and,
because `layoutY` is a dependency of the effect, re-runs the effect which
immediately evaluates `checkAndAnimate(0)` (lines 301-303); the fallback
timer and the intersection-observer callback both call `animateIn`
(lines 259-284). -/
def step (screenHeight : ℚ) (st : TargetState) : RevealEvent → TargetState
  | .scroll v => checkAndAnimate screenHeight st v
  | .layout y => checkAndAnimate screenHeight { st with layoutY := some y } 0
  | .timerTick => animateIn st
  | .observerHit => animateIn st

/-- `duration: 800` of the `Animated.timing` config (src/App.tsx line 244). -/
def duration : ℕ := 800

/-- The 80 ms delay of the no-signal `setTimeout` fallback
(src/App.tsx line 284). -/
def fallbackDelay : ℕ := 80

/-- Default `itemDelay = 100` of `StaggeredScrollAnimation`
(src/App.tsx line 362). -/
def defaultItemDelay : ℕ := 100

/-- `threshold: 0.1` of the IntersectionObserver options (line 269). -/
def observerThreshold : ℚ := 0.1

/-- The trailing component of `rootMargin: "0px 0px -100px 0px"` (line 270). -/
def rootMarginBottom : ℤ := -100

/-- `Easing.out(Easing.cubic)` (src/App.tsx line 246):
`Easing.cubic t = t ^ 3` and `Easing.out f t = 1 - f 1-t`. -/
def easeOutCubic (t : ℚ) : ℚ := 1 - (1 - t) ^ 3

/-- `Animated.Value.interpolate` with one linear segment: maps `p` from
`inputRange [inMin, inMax]` to `outputRange [outMin, outMax]`. -/
def interpolateLinear (inMin inMax outMin outMax p : ℚ) : ℚ :=
  outMin + (p - inMin) / (inMax - inMin) * (outMax - outMin)

/-- `animationStyle` (src/App.tsx lines 314-324): `opacity` is the raw
animated value `p`, `translateY` interpolates `p` over
`inputRange [0, 1]`, `outputRange [60, 0]`.  Returned as the pair
`(opacity, translateY)`. -/
def animationStyle (p : ℚ) : ℚ × ℚ :=
  (p, interpolateLinear 0 1 60 0 p)

/-- `delay={index * itemDelay}` assigned by `StaggeredScrollAnimation`
to its children in order (src/App.tsx lines 363-375). -/
def staggeredDelays (n itemDelay : ℕ) : List ℕ :=
  (List.range n).map (fun index => index * itemDelay)

/-- Delivering an event to one child of a staggered group: each child
owns its own `useScrollAnimation` state, so only that child steps. -/
def stepChild (screenHeight : ℚ) (g : List TargetState) (i : ℕ)
    (e : RevealEvent) : List TargetState :=
  g.set i (step screenHeight (g.getD i initTarget) e)

/-- A registered handle: the target state plus the event-source
registrations the effect installed (the fallback `setTimeout`, the
scroll-signal listener, the IntersectionObserver) and whether the effect
cleanup has run (`disposed`).  The cleanup (src/App.tsx lines 278, 285,
309-311) clears the timer, removes the listener and disconnects the
observer. -/
structure Handle where
  target : TargetState
  timerActive : Bool
  listenerActive : Bool
  observerActive : Bool
  disposed : Bool
deriving DecidableEq

/-- Whether an event reaches the hook through a live registration:
scroll updates only through the `scrollY.addListener` subscription, the
timer only while the `setTimeout` is pending, observer callbacks only
while observing, and `onLayout` only while the component is mounted. -/
def fires (h : Handle) : RevealEvent → Bool
  | .scroll _ => h.listenerActive
  | .layout _ => !h.disposed
  | .timerTick => h.timerActive
  | .observerHit => h.observerActive

/-- Deliver an event to a handle: the callback body runs only when the
corresponding registration is live. -/
def deliver (screenHeight : ℚ) (h : Handle) (e : RevealEvent) : Handle :=
  if fires h e then { h with target := step screenHeight h.target e } else h

/-- `dispose`: the effect cleanup on unmount — `clearTimeout(t)`,
`scrollY.removeListener(id)`, `observer.disconnect()` (src/App.tsx lines
278, 285, 309-311).  All three host operations are idempotent and total. -/
def dispose (h : Handle) : Handle :=
  { h with timerActive := false, listenerActive := false,
           observerActive := false, disposed := true }

/-- The style the render layer receives for a target each frame: an
unmounted (disposed) target is no longer rendered, so no style update is
delivered for it. -/
def deliveredStyle (h : Handle) (p : ℚ) : Option (ℚ × ℚ) :=
  if h.disposed then none else some (animationStyle p)

/-- State of the no-signal fallback branch (src/App.tsx lines 281-286):
registration schedules a single `setTimeout(animateIn, 80)`. -/
structure NoSigState where
  target : TargetState
  timerPending : Bool
deriving DecidableEq

/-- Registration with no scroll signal: fresh target state, timer armed. -/
def registerNoSignal : NoSigState := ⟨initTarget, true⟩

/-- The fallback timer firing: calls `animateIn` unconditionally, with no
scroll or layout check; a `setTimeout` fires at most once. -/
def timerFire (s : NoSigState) : NoSigState :=
  if s.timerPending then ⟨animateIn s.target, false⟩ else s

end AppTsx

namespace Part000

/-- `animateIn` of the variant (src/unnamed/part_000 lines 222-232):
comment in source says "only once"; identical body to src/App.tsx. -/
def animateIn (st : TargetState) : TargetState :=
  if st.isVisible then st
  else { st with isVisible := true, animStarts := st.animStarts + 1 }

/-- `buffer = screenHeight * 0.1` (src/unnamed/part_000 line 279). -/
def buffer (screenHeight : ℚ) : ℚ := screenHeight * 0.1

/-- `checkAndAnimate` of the variant (src/unnamed/part_000 lines 281-288),
rendered the same way as the `AppTsx` version. -/
def checkAndAnimate (screenHeight : ℚ) (st : TargetState) (scrollValue : ℚ) :
    TargetState :=
  match st.layoutY with
  | none => st
  | some layoutY =>
    if st.isVisible then st
    else
      let visibleBottom := scrollValue + screenHeight
      if visibleBottom ≥ layoutY + buffer screenHeight then animateIn st
      else st

/-- One event step of the variant hook (src/unnamed/part_000 lines
239-302), mirroring the effect structure of the variant file. -/
def step (screenHeight : ℚ) (st : TargetState) : RevealEvent → TargetState
  | .scroll v => checkAndAnimate screenHeight st v
  | .layout y => checkAndAnimate screenHeight { st with layoutY := some y } 0
  | .timerTick => animateIn st
  | .observerHit => animateIn st

/-- `duration: 800` (src/unnamed/part_000 line 227). -/
def duration : ℕ := 800

/-- The 80 ms `setTimeout` fallback delay (src/unnamed/part_000 line 272). -/
def fallbackDelay : ℕ := 80

/-- Default `itemDelay = 100` of the variant `StaggeredScrollAnimation`
(src/unnamed/part_000 line 355). -/
def defaultItemDelay : ℕ := 100

/-- `Easing.out(Easing.cubic)` (src/unnamed/part_000 line 229). -/
def easeOutCubic (t : ℚ) : ℚ := 1 - (1 - t) ^ 3

/-- `animationStyle` of the variant (src/unnamed/part_000 lines 304-314):
opacity is the raw animated value, translateY interpolates over
`inputRange [0, 1]`, `outputRange [60, 0]`. -/
def animationStyle (p : ℚ) : ℚ × ℚ :=
  (p, AppTsx.interpolateLinear 0 1 60 0 p)

/-- `delay={index * itemDelay}` of the variant stagger helper
(src/unnamed/part_000 lines 356-364). -/
def staggeredDelays (n itemDelay : ℕ) : List ℕ :=
  (List.range n).map (fun index => index * itemDelay)

end Part000

/-- Contact-form state (src/App.tsx lines 494-500): five string fields. -/
structure ContactForm where
  name : String
  email : String
  company : String
  budget : String
  message : String
deriving DecidableEq

/-- The reset value `setForm` receives on success (src/App.tsx 512-518). -/
def emptyForm : ContactForm := ⟨"", "", "", "", ""⟩

/-- `handleSubmit` (src/App.tsx lines 506-519): `!form.email` and
`!form.message` test JavaScript string falsiness, i.e. emptiness; on a
missing field the handler alerts and returns with the form unchanged,
otherwise it resets every field to the empty string. -/
def handleSubmit (form : ContactForm) : ContactForm :=
  if form.email = "" ∨ form.message = "" then form
  else emptyForm

/-! ## Helper lemmas -/

/-- The visibility outcome of one `checkAndAnimate` call on a measured,
not-yet-visible target is exactly the `visibleBottom ≥ layoutY + buffer`
comparison. -/
lemma checkAndAnimate_isVisible_iff (H y s : ℚ) (st : TargetState)
    (hv : st.isVisible = false) (hl : st.layoutY = some y) :
    (AppTsx.checkAndAnimate H st s).isVisible = true ↔
      y + AppTsx.buffer H ≤ s + H := by
  simp only [AppTsx.checkAndAnimate, hl, hv, Bool.false_eq_true, if_false, ge_iff_le]
  split
  · simp [AppTsx.animateIn, hv, *]
  · simp [hv, *]

/-- The `translateY` interpolation over `[0,1] → [60,0]` is `60 * (1 - p)`. -/
lemma interpolate_eq (p : ℚ) :
    AppTsx.interpolateLinear 0 1 60 0 p = 60 * (1 - p) := by
  simp only [AppTsx.interpolateLinear]
  ring

/-- `buffer` in linear form, for arithmetic tactics. -/
lemma buffer_eq (H : ℚ) : AppTsx.buffer H = H * (1 / 10) := by
  rw [AppTsx.buffer]
  norm_num

/-- A visible target is left unchanged by `checkAndAnimate`. -/
lemma checkAndAnimate_of_visible (H v : ℚ) (st : TargetState)
    (h : st.isVisible = true) :
    AppTsx.checkAndAnimate H st v = st := by
  unfold AppTsx.checkAndAnimate
  split
  · rfl
  · simp [h]

/-- When the comparison fails, `checkAndAnimate` is a no-op. -/
lemma checkAndAnimate_of_below (H s y : ℚ) (st : TargetState)
    (hl : st.layoutY = some y) (hcmp : s + H < y + AppTsx.buffer H) :
    AppTsx.checkAndAnimate H st s = st := by
  simp only [AppTsx.checkAndAnimate, hl]
  split
  · rfl
  · rw [if_neg (not_le.mpr hcmp)]

/-- Stepping a visible target changes neither visibility nor the number
of started animations. -/
lemma step_of_visible (H : ℚ) (st : TargetState) (e : RevealEvent)
    (h : st.isVisible = true) :
    (AppTsx.step H st e).isVisible = true
    ∧ (AppTsx.step H st e).animStarts = st.animStarts := by
  cases e with
  | scroll v =>
    rw [AppTsx.step, checkAndAnimate_of_visible H v st h]
    exact ⟨h, rfl⟩
  | layout y =>
    rw [AppTsx.step, checkAndAnimate_of_visible H 0 { st with layoutY := some y } h]
    exact ⟨h, rfl⟩
  | timerTick =>
    simp [AppTsx.step, AppTsx.animateIn, h]
  | observerHit =>
    simp [AppTsx.step, AppTsx.animateIn, h]

/-- The latching invariant: the animation was started at most once, and
not at all while the target is still invisible. -/
def LatchInv (st : TargetState) : Prop :=
  st.animStarts ≤ 1 ∧ (st.isVisible = false → st.animStarts = 0)

lemma latchInv_animateIn (st : TargetState) (h : LatchInv st) :
    LatchInv (AppTsx.animateIn st) := by
  obtain ⟨h1, h2⟩ := h
  by_cases hv : st.isVisible
  · simpa [AppTsx.animateIn, hv] using ⟨h1, h2⟩
  · simp only [Bool.not_eq_true] at hv
    simp [AppTsx.animateIn, hv, LatchInv, h2 hv]

lemma latchInv_check (H v : ℚ) (st : TargetState) (h : LatchInv st) :
    LatchInv (AppTsx.checkAndAnimate H st v) := by
  unfold AppTsx.checkAndAnimate
  split
  · exact h
  · next ly hly =>
    split
    · exact h
    · show LatchInv (if v + H ≥ ly + AppTsx.buffer H then AppTsx.animateIn st else st)
      split
      · exact latchInv_animateIn st h
      · exact h

lemma latchInv_step (H : ℚ) (st : TargetState) (e : RevealEvent)
    (h : LatchInv st) : LatchInv (AppTsx.step H st e) := by
  cases e with
  | scroll v => exact latchInv_check H v st h
  | layout y => exact latchInv_check H 0 _ h
  | timerTick => exact latchInv_animateIn st h
  | observerHit => exact latchInv_animateIn st h

lemma latchInv_foldl (H : ℚ) (events : List RevealEvent) (st : TargetState)
    (h : LatchInv st) : LatchInv (events.foldl (AppTsx.step H) st) := by
  induction events generalizing st with
  | nil => exact h
  | cons e es ih => exact ih _ (latchInv_step H st e h)

/-! ## Claims -/

/-- Claim C1: under the scroll-offset comparison strategy a registered,
not-yet-visible target with measured position `y` and viewport height `H`
becomes visible on a scroll update to offset `s` exactly when
`s + H ≥ y + 0.1 * H`; with `H = 800`, `y = 1000` it stays invisible
whenever `s + 800 < 1080` and triggers once `s ≥ 280`. -/
theorem c1_scroll_trigger_iff (H y s : ℚ) (st : TargetState)
    (hv : st.isVisible = false) (hl : st.layoutY = some y) :
    ((AppTsx.checkAndAnimate H st s).isVisible = true ↔ s + H ≥ y + H * 0.1)
    ∧ (∀ s2 : ℚ, s2 + 800 < 1080 →
        (AppTsx.checkAndAnimate 800 ⟨false, some 1000, 0⟩ s2).isVisible = false)
    ∧ (∀ s2 : ℚ, s2 ≥ 280 →
        (AppTsx.checkAndAnimate 800 ⟨false, some 1000, 0⟩ s2).isVisible = true) := by
  refine ⟨checkAndAnimate_isVisible_iff H y s st hv hl, ?_, ?_⟩
  · intro s2 hs2
    rw [← Bool.not_eq_true, checkAndAnimate_isVisible_iff 800 1000 s2 _ rfl rfl]
    rw [AppTsx.buffer]
    norm_num
    linarith
  · intro s2 hs2
    rw [checkAndAnimate_isVisible_iff 800 1000 s2 _ rfl rfl, AppTsx.buffer]
    norm_num
    linarith

/-- Witness for C1 at `H = 800`, `y = 1000`, `s = 280`. -/
theorem c1_scroll_trigger_iff_witness :
    ((AppTsx.checkAndAnimate 800 ⟨false, some 1000, 0⟩ 280).isVisible = true ↔
      (280 : ℚ) + 800 ≥ 1000 + 800 * 0.1)
    ∧ (∀ s2 : ℚ, s2 + 800 < 1080 →
        (AppTsx.checkAndAnimate 800 ⟨false, some 1000, 0⟩ s2).isVisible = false)
    ∧ (∀ s2 : ℚ, s2 ≥ 280 →
        (AppTsx.checkAndAnimate 800 ⟨false, some 1000, 0⟩ s2).isVisible = true) :=
  c1_scroll_trigger_iff 800 1000 280 ⟨false, some 1000, 0⟩ rfl rfl

/-- Claim C5: with `layoutY` still unreported (`none`), `checkAndAnimate`
is a no-op for every scroll offset — the target never triggers and its
state is unchanged. -/
theorem c5_null_position_noop (H s : ℚ) (st : TargetState)
    (h : st.layoutY = none) :
    AppTsx.checkAndAnimate H st s = st := by
  simp [AppTsx.checkAndAnimate, h]

/-- Witness for C5 at the initial (unmeasured) state and offset 5000. -/
theorem c5_null_position_noop_witness :
    AppTsx.checkAndAnimate 800 initTarget 5000 = initTarget :=
  c5_null_position_noop 800 5000 initTarget rfl

/-- Claim C7: the style read maps progress `p` to `opacity = p` and
`translateY = 60 * (1 - p)`; endpoints are `(0, 60)` and `(1, 0)`, and
between them opacity is monotonically increasing and translateY
monotonically decreasing in `p`. -/
theorem c7_style_map (p q : ℚ) (hpq : p ≤ q) :
    AppTsx.animationStyle p = (p, 60 * (1 - p))
    ∧ AppTsx.animationStyle 0 = (0, 60)
    ∧ AppTsx.animationStyle 1 = (1, 0)
    ∧ (AppTsx.animationStyle p).1 ≤ (AppTsx.animationStyle q).1
    ∧ (AppTsx.animationStyle q).2 ≤ (AppTsx.animationStyle p).2 := by
  refine ⟨?_, ?_, ?_, ?_, ?_⟩
  · simp [AppTsx.animationStyle, interpolate_eq]
  · simp [AppTsx.animationStyle, interpolate_eq]
  · simp [AppTsx.animationStyle, interpolate_eq]
  · simpa [AppTsx.animationStyle] using hpq
  · simp only [AppTsx.animationStyle, interpolate_eq]
    linarith

/-- Witness for C7 at `p = 0`, `q = 1`. -/
theorem c7_style_map_witness :
    AppTsx.animationStyle 0 = (0, 60 * (1 - 0))
    ∧ AppTsx.animationStyle 0 = (0, 60)
    ∧ AppTsx.animationStyle 1 = (1, 0)
    ∧ (AppTsx.animationStyle 0).1 ≤ (AppTsx.animationStyle 1).1
    ∧ (AppTsx.animationStyle 1).2 ≤ (AppTsx.animationStyle 0).2 :=
  c7_style_map 0 1 (by norm_num)

/-- Claim C10: submitting with an empty email or an empty message leaves
the form unchanged (all five fields), and submitting with both non-empty
resets all five fields to the empty string. -/
theorem c10_submit_reset (f : ContactForm) :
    (f.email = "" ∨ f.message = "" → handleSubmit f = f)
    ∧ (f.email ≠ "" → f.message ≠ "" → handleSubmit f = emptyForm) := by
  constructor
  · intro h
    unfold handleSubmit
    exact if_pos h
  · intro h1 h2
    unfold handleSubmit
    exact if_neg (by tauto)

/-- Witness for C10 on two concrete forms: one missing the email, one
with both required fields filled. -/
theorem c10_submit_reset_witness :
    handleSubmit ⟨"n", "", "c", "b", "m"⟩ = ⟨"n", "", "c", "b", "m"⟩
    ∧ handleSubmit ⟨"n", "a", "c", "b", "m"⟩ = emptyForm :=
  ⟨(c10_submit_reset ⟨"n", "", "c", "b", "m"⟩).1 (Or.inl rfl),
   (c10_submit_reset ⟨"n", "a", "c", "b", "m"⟩).2 (by decide) (by decide)⟩

/-- Claim C2: over every sequence of scroll, layout, observer and timer
events the `visible` flag latches — the entrance animation is started at
most once from the initial state, and once a target is visible no further
event changes its visibility or starts the animation again. -/
theorem c2_visible_latched (H : ℚ) (events : List RevealEvent) :
    (events.foldl (AppTsx.step H) initTarget).animStarts ≤ 1
    ∧ (∀ (st : TargetState) (e : RevealEvent), st.isVisible = true →
        (AppTsx.step H st e).isVisible = true
        ∧ (AppTsx.step H st e).animStarts = st.animStarts) := by
  constructor
  · exact (latchInv_foldl H events initTarget ⟨Nat.zero_le 1, fun _ => rfl⟩).1
  · exact fun st e h => step_of_visible H st e h

/-- Witness for C2 on a concrete event trace and a concrete visible state. -/
theorem c2_visible_latched_witness :
    (([RevealEvent.layout 100, RevealEvent.scroll 300,
       RevealEvent.scroll 500].foldl (AppTsx.step 800) initTarget).animStarts ≤ 1)
    ∧ ((AppTsx.step 800 ⟨true, some 100, 1⟩ RevealEvent.observerHit).isVisible = true
       ∧ (AppTsx.step 800 ⟨true, some 100, 1⟩ RevealEvent.observerHit).animStarts = 1) :=
  ⟨(c2_visible_latched 800 [RevealEvent.layout 100, RevealEvent.scroll 300,
      RevealEvent.scroll 500]).1,
   (c2_visible_latched 800 []).2 ⟨true, some 100, 1⟩ RevealEvent.observerHit rfl⟩

/-- Claim C3: after `dispose` (the effect cleanup: clear the fallback
timer, remove the scroll listener, disconnect the observer) no callback
fires, delivering any event leaves the handle unchanged, no style update
is delivered for the disposed target, and a second `dispose` is a no-op
that raises no error. -/
theorem c3_dispose_silences (H : ℚ) (h : AppTsx.Handle) (e : RevealEvent)
    (p : ℚ) :
    AppTsx.fires (AppTsx.dispose h) e = false
    ∧ AppTsx.deliver H (AppTsx.dispose h) e = AppTsx.dispose h
    ∧ AppTsx.deliveredStyle (AppTsx.dispose h) p = none
    ∧ AppTsx.dispose (AppTsx.dispose h) = AppTsx.dispose h := by
  refine ⟨?_, ?_, ?_, rfl⟩
  · cases e <;> simp [AppTsx.fires, AppTsx.dispose]
  · cases e <;> simp [AppTsx.deliver, AppTsx.fires, AppTsx.dispose]
  · simp [AppTsx.deliveredStyle, AppTsx.dispose]

/-- Claim C4: with no scroll signal, registration arms an 80 ms
`setTimeout` whose callback calls `animateIn` unconditionally — the
target becomes visible with the animation started exactly once, with no
scroll or layout event involved, and a repeated fire is a no-op. -/
theorem c4_no_signal_fallback :
    AppTsx.fallbackDelay = 80
    ∧ (AppTsx.timerFire AppTsx.registerNoSignal).target.isVisible = true
    ∧ (AppTsx.timerFire AppTsx.registerNoSignal).target.animStarts = 1
    ∧ AppTsx.timerFire (AppTsx.timerFire AppTsx.registerNoSignal)
        = AppTsx.timerFire AppTsx.registerNoSignal :=
  ⟨rfl, rfl, rfl, rfl⟩

/-- Claim C6: the staggering helper assigns the child at index `i` the
fixed delay `i * itemDelay` (default 100 ms); three children with
`itemDelay = 100` get delays 0, 100, 200; and delivering an event to one
child of a group leaves every sibling's state untouched. -/
theorem c6_stagger_delays (n itemDelay i : ℕ) (hi : i < n)
    (H : ℚ) (g : List TargetState) (e : RevealEvent) (j k : ℕ) (hjk : j ≠ k) :
    (AppTsx.staggeredDelays n itemDelay)[i]? = some (i * itemDelay)
    ∧ AppTsx.defaultItemDelay = 100
    ∧ AppTsx.staggeredDelays 3 100 = [0, 100, 200]
    ∧ (AppTsx.stepChild H g j e)[k]? = g[k]? := by
  refine ⟨?_, rfl, by decide, ?_⟩
  · simp [AppTsx.staggeredDelays, List.getElem?_range, hi]
  · rw [AppTsx.stepChild, List.getElem?_set_ne hjk]

/-- Witness for C6: three children, delay of the middle one, and an event
delivered to child 0 not affecting child 1. -/
theorem c6_stagger_delays_witness :
    (AppTsx.staggeredDelays 3 100)[1]? = some (1 * 100)
    ∧ AppTsx.defaultItemDelay = 100
    ∧ AppTsx.staggeredDelays 3 100 = [0, 100, 200]
    ∧ (AppTsx.stepChild 800 [initTarget, initTarget] 0 RevealEvent.timerTick)[1]?
        = [initTarget, initTarget][1]? :=
  c6_stagger_delays 3 100 1 (by decide) 800 [initTarget, initTarget]
    RevealEvent.timerTick 0 1 (by decide)

/-- Counterexample to claim C8 as stated: a negative measured position
does satisfy the visibility comparison — at position `-50`, viewport
height 800 and scroll offset 0 the comparison holds and the target
animates, so the comparison does not "never become true" for negative
positions. -/
theorem c8_counterexample :
    ((-50 : ℚ) < 0)
    ∧ (AppTsx.checkAndAnimate 800 ⟨false, some (-50), 0⟩ 0).isVisible = true := by
  constructor
  · norm_num
  · rw [checkAndAnimate_isVisible_iff 800 (-50) 0 _ rfl rfl, buffer_eq]
    norm_num

/-- Claim C8 amended: measured positions outside the reachable range are
tolerated without crash — for a position beyond
`maxScroll + 0.9 * viewportHeight` the comparison never becomes true for
any achievable offset, so the state is unchanged and the animation never
plays; a negative position instead satisfies the comparison already at
offset 0 and animates immediately.  Either way the check is a total
function: no error is raised. -/
theorem c8_amended (H y maxScroll s : ℚ) (st : TargetState)
    (hH : 0 < H) (hl : st.layoutY = some y) (hs0 : 0 ≤ s)
    (hsm : s ≤ maxScroll) :
    (maxScroll + H * (9 / 10) < y → AppTsx.checkAndAnimate H st s = st)
    ∧ (y < 0 → st.isVisible = false →
        (AppTsx.checkAndAnimate H st 0).isVisible = true) := by
  constructor
  · intro hy
    exact checkAndAnimate_of_below H s y st hl (by rw [buffer_eq]; linarith)
  · intro hy hv
    rw [checkAndAnimate_isVisible_iff H y 0 st hv hl, buffer_eq]
    linarith

/-- Witness for C8 amended at `H = 800`, `y = 1000`, `maxScroll = 100`,
`s = 50`. -/
theorem c8_amended_witness :
    ((100 : ℚ) + 800 * (9 / 10) < 1000 →
      AppTsx.checkAndAnimate 800 ⟨false, some 1000, 0⟩ 50 = ⟨false, some 1000, 0⟩)
    ∧ ((1000 : ℚ) < 0 → (false : Bool) = false →
        (AppTsx.checkAndAnimate 800 ⟨false, some 1000, 0⟩ 0).isVisible = true) :=
  c8_amended 800 1000 100 50 ⟨false, some 1000, 0⟩ (by norm_num) rfl
    (by norm_num) (by norm_num)

/-- Claim C9: the reveal-animation hooks of the two file variants are
extensionally equal — the step functions, visibility checks, style maps,
timing constants and stagger delays of `src/unnamed/part_000` coincide
with those of `src/App.tsx` on every input. -/
theorem c9_variants_equal :
    Part000.animateIn = AppTsx.animateIn
    ∧ Part000.buffer = AppTsx.buffer
    ∧ Part000.checkAndAnimate = AppTsx.checkAndAnimate
    ∧ Part000.step = AppTsx.step
    ∧ Part000.animationStyle = AppTsx.animationStyle
    ∧ Part000.duration = AppTsx.duration
    ∧ Part000.fallbackDelay = AppTsx.fallbackDelay
    ∧ Part000.defaultItemDelay = AppTsx.defaultItemDelay
    ∧ Part000.easeOutCubic = AppTsx.easeOutCubic
    ∧ Part000.staggeredDelays = AppTsx.staggeredDelays :=
  ⟨rfl, rfl, rfl, rfl, rfl, rfl, rfl, rfl, rfl, rfl⟩
